import Mathlib

/-!
Shallow embedding of the OpenCTM API layer (`openctm.c`).

The C context structure `_CTMcontext` becomes a Lean structure over an
abstract linearly ordered field `F` standing for the C floating-point type
(instantiated at `ℚ` for executable checks and at `ℝ` where a square root
is needed).  C pointers that may be null become `Option`; the byte-stream
callbacks become explicit byte lists (`List Nat`, one entry per byte).
Memory allocation and deallocation are not observable in this value
semantics; the only allocation that can fail on a path exercised below
(`ctmFileComment`) is modelled by an explicit success flag.
-/

set_option linter.unusedVariables false
set_option linter.unusedSectionVars false

/-- Context mode, from `openctm.h` (`CTM_IMPORT` / `CTM_EXPORT`). -/
inductive CTMmode where
  | CTM_IMPORT
  | CTM_EXPORT
  deriving DecidableEq, Repr

export CTMmode (CTM_IMPORT CTM_EXPORT)

/-- Error codes.  Modelled from the spec: `openctm.h` is not under `src/`;
the spec's error taxonomy lists no-error, invalid-context-handle,
invalid-operation, invalid-argument, invalid-mesh, out-of-memory,
file-error, format-error and unsupported-operation as distinct kinds. -/
inductive CTMerror where
  | CTM_NO_ERROR
  | CTM_INVALID_CONTEXT
  | CTM_INVALID_OPERATION
  | CTM_INVALID_ARGUMENT
  | CTM_INVALID_MESH
  | CTM_OUT_OF_MEMORY
  | CTM_FILE_ERROR
  | CTM_FORMAT_ERROR
  | CTM_UNSUPPORTED_OPERATION
  deriving DecidableEq, Repr

export CTMerror (CTM_NO_ERROR CTM_INVALID_CONTEXT CTM_INVALID_OPERATION
  CTM_INVALID_ARGUMENT CTM_INVALID_MESH CTM_OUT_OF_MEMORY CTM_FILE_ERROR
  CTM_FORMAT_ERROR CTM_UNSUPPORTED_OPERATION)

/-- Compression methods (`CTM_METHOD_RAW` / `CTM_METHOD_MG1` / `CTM_METHOD_MG2`). -/
inductive CTMmethod where
  | CTM_METHOD_RAW
  | CTM_METHOD_MG1
  | CTM_METHOD_MG2
  deriving DecidableEq, Repr

export CTMmethod (CTM_METHOD_RAW CTM_METHOD_MG1 CTM_METHOD_MG2)

/-- Property identifiers.  Modelled from the spec: `openctm.h` is not under
`src/`; the spec describes a small enumeration with scalar identifiers and
two open-ended ranges starting at distinct base identifiers
(`TextureMap[1..]`, `AttributeMap[1..]`).  Concrete values are chosen so the
scalar identifiers lie below both bases and the bases are separated. -/
def CTM_NONE : Nat := 0

/-- Property identifier: vertex count. -/
def CTM_VERTEX_COUNT : Nat := 1

/-- Property identifier: triangle count. -/
def CTM_TRIANGLE_COUNT : Nat := 2

/-- Property identifier: texture map count. -/
def CTM_TEX_MAP_COUNT : Nat := 3

/-- Property identifier: attribute map count. -/
def CTM_ATTRIB_MAP_COUNT : Nat := 4

/-- Property identifier: has-normals boolean. -/
def CTM_HAS_NORMALS : Nat := 5

/-- Property identifier: file comment string. -/
def CTM_FILE_COMMENT : Nat := 6

/-- Property identifier: index array. -/
def CTM_INDICES : Nat := 0x0101

/-- Property identifier: vertex array. -/
def CTM_VERTICES : Nat := 0x0102

/-- Property identifier: normal array. -/
def CTM_NORMALS : Nat := 0x0103

/-- Base identifier of the open-ended texture-map range. -/
def CTM_TEX_MAP_1 : Nat := 0x0200

/-- Base identifier of the open-ended attribute-map range. -/
def CTM_ATTRIB_MAP_1 : Nat := 0x0400

/-- `CTM_TRUE`. -/
def CTM_TRUE : Nat := 1

/-- `CTM_FALSE`. -/
def CTM_FALSE : Nat := 0

/-- One entry of a `_CTMfloatmap` linked list: an optional owned name and a
float array (null pointer becomes `none`).  The C `mNext` link becomes the
tail of the enclosing `List`. -/
structure FloatMap (F : Type) where
  mName : Option (List Nat)
  mValues : Option (List F)
  deriving DecidableEq, Repr

/-- The `_CTMcontext` structure (`internal.h` / `openctm.c`).  The stream
callback fields `mReadFn` / `mWriteFn` / `mUserData` are not stored: streams
are passed explicitly to the load/save functions. -/
structure CTMcontext (F : Type) where
  mMode : CTMmode
  mError : CTMerror
  mMethod : CTMmethod
  mVertexPrecision : F
  mVertexCount : Nat
  mTriangleCount : Nat
  mVertices : Option (List F)
  mIndices : Option (List Nat)
  mNormals : Option (List F)
  mTexMaps : List (FloatMap F)
  mTexMapCount : Nat
  mAttribMaps : List (FloatMap F)
  mAttribMapCount : Nat
  mFileComment : Option (List Nat)
  deriving DecidableEq, Repr

/-- The external codec layer (`compress_raw.c` / `compress_mg1.c` /
`compress_mg2.c`, outside this core): one payload writer and one payload
reader per method, exactly the six entry points `openctm.c` dispatches to. -/
structure Codecs (F : Type) where
  compressRAW : CTMcontext F → List Nat
  compressMG1 : CTMcontext F → List Nat
  compressMG2 : CTMcontext F → List Nat
  uncompressRAW : CTMcontext F → List Nat → CTMcontext F
  uncompressMG1 : CTMcontext F → List Nat → CTMcontext F
  uncompressMG2 : CTMcontext F → List Nat → CTMcontext F

variable {F : Type} [LinearOrderedField F]

/-- `_ctmClearMesh()`: clear all mesh arrays, counts and both map lists.
Freeing of owned memory (Import mode) is not observable here; the resulting
field values are what the C code leaves behind in either mode. -/
def _ctmClearMesh (self : CTMcontext F) : CTMcontext F :=
  { self with
    mVertices := none, mVertexCount := 0,
    mIndices := none, mTriangleCount := 0,
    mNormals := none,
    mTexMaps := [], mTexMapCount := 0,
    mAttribMaps := [], mAttribMapCount := 0 }

/-- `ctmNewContext()`: fresh context in the given mode. -/
def ctmNewContext (aMode : CTMmode) : CTMcontext F :=
  { mMode := aMode
    mError := CTM_NO_ERROR
    mMethod := CTM_METHOD_MG1
    mVertexPrecision := 1 / 1024
    mVertexCount := 0
    mTriangleCount := 0
    mVertices := none
    mIndices := none
    mNormals := none
    mTexMaps := []
    mTexMapCount := 0
    mAttribMaps := []
    mAttribMapCount := 0
    mFileComment := none }

/-- `ctmFreeContext()`: releases all resources.  Deallocation is not
observable in this value semantics; a null handle is tolerated. -/
def ctmFreeContext (aContext : Option (CTMcontext F)) : Unit := ()

/-- `ctmError()`: destructive read of the error register.  A null handle
yields `CTM_INVALID_CONTEXT`. -/
def ctmError (aContext : Option (CTMcontext F)) :
    CTMerror × Option (CTMcontext F) :=
  match aContext with
  | none => (CTM_INVALID_CONTEXT, none)
  | some self => (self.mError, some { self with mError := CTM_NO_ERROR })

/-- `ctmGetInteger()`. -/
def ctmGetInteger (aContext : Option (CTMcontext F)) (aProperty : Nat) :
    Nat × Option (CTMcontext F) :=
  match aContext with
  | none => (0, none)
  | some self =>
    if aProperty = CTM_VERTEX_COUNT then (self.mVertexCount, some self)
    else if aProperty = CTM_TRIANGLE_COUNT then (self.mTriangleCount, some self)
    else if aProperty = CTM_TEX_MAP_COUNT then (self.mTexMapCount, some self)
    else if aProperty = CTM_ATTRIB_MAP_COUNT then (self.mAttribMapCount, some self)
    else if aProperty = CTM_HAS_NORMALS then
      ((if self.mNormals.isSome then CTM_TRUE else CTM_FALSE), some self)
    else (0, some { self with mError := CTM_INVALID_ARGUMENT })

/-- `ctmGetIntegerArray()`. -/
def ctmGetIntegerArray (aContext : Option (CTMcontext F)) (aProperty : Nat) :
    Option (List Nat) × Option (CTMcontext F) :=
  match aContext with
  | none => (none, none)
  | some self =>
    if aProperty = CTM_INDICES then (self.mIndices, some self)
    else (none, some { self with mError := CTM_INVALID_ARGUMENT })

/-- The linked-list walk in `ctmGetFloatArray()`:
`while(map && (i != aProperty)) { map = map->mNext; ++i; }`. -/
def _ctmWalkMap (maps : List (FloatMap F)) (i target : Nat) :
    Option (FloatMap F) :=
  match maps with
  | [] => none
  | m :: rest => if i = target then some m else _ctmWalkMap rest (i + 1) target

/-- `ctmGetFloatArray()`: texture-map range, attribute-map range, then the
direct array properties. -/
def ctmGetFloatArray (aContext : Option (CTMcontext F)) (aProperty : Nat) :
    Option (List F) × Option (CTMcontext F) :=
  match aContext with
  | none => (none, none)
  | some self =>
    if CTM_TEX_MAP_1 ≤ aProperty ∧ aProperty - CTM_TEX_MAP_1 < self.mTexMapCount then
      match _ctmWalkMap self.mTexMaps CTM_TEX_MAP_1 aProperty with
      | none => (none, some { self with mError := CTM_INVALID_ARGUMENT })
      | some map => (map.mValues, some self)
    else if CTM_ATTRIB_MAP_1 ≤ aProperty ∧ aProperty - CTM_ATTRIB_MAP_1 < self.mAttribMapCount then
      match _ctmWalkMap self.mAttribMaps CTM_ATTRIB_MAP_1 aProperty with
      | none => (none, some { self with mError := CTM_INVALID_ARGUMENT })
      | some map => (map.mValues, some self)
    else if aProperty = CTM_VERTICES then (self.mVertices, some self)
    else if aProperty = CTM_NORMALS then (self.mNormals, some self)
    else (none, some { self with mError := CTM_INVALID_ARGUMENT })

/-- `ctmGetString()`. -/
def ctmGetString (aContext : Option (CTMcontext F)) (aProperty : Nat) :
    Option (List Nat) × Option (CTMcontext F) :=
  match aContext with
  | none => (none, none)
  | some self =>
    if aProperty = CTM_FILE_COMMENT then (self.mFileComment, some self)
    else (none, some { self with mError := CTM_INVALID_ARGUMENT })

/-- `ctmCompressionMethod()`.  The C argument-range check over the three
enum values is vacuously satisfied by the inductive `CTMmethod`. -/
def ctmCompressionMethod (aContext : Option (CTMcontext F))
    (aMethod : CTMmethod) : Option (CTMcontext F) :=
  match aContext with
  | none => none
  | some self =>
    if self.mMode ≠ CTM_EXPORT then
      some { self with mError := CTM_INVALID_OPERATION }
    else
      some { self with mMethod := aMethod }

/-- `ctmVertexPrecision()`. -/
def ctmVertexPrecision (aContext : Option (CTMcontext F)) (aPrecision : F) :
    Option (CTMcontext F) :=
  match aContext with
  | none => none
  | some self =>
    if self.mMode ≠ CTM_EXPORT then
      some { self with mError := CTM_INVALID_OPERATION }
    else if aPrecision ≤ 0 then
      some { self with mError := CTM_INVALID_ARGUMENT }
    else
      some { self with mVertexPrecision := aPrecision }

/-- Fetch the 3-vector at vertex index `k` (the C expression
`&vertices[k * 3]` read three floats wide); out-of-range reads, which are
undefined behaviour in C, are modelled as 0. -/
def _vtx (vertices : List F) (k : Nat) : F × F × F :=
  (vertices.getD (3 * k) 0, vertices.getD (3 * k + 1) 0, vertices.getD (3 * k + 2) 0)

/-- Fetch index `k` of the index array (`indices[k]`), 0 if out of range. -/
def _idx (indices : List Nat) (k : Nat) : Nat := indices.getD k 0

/-- One Euclidean edge length: `sqrt((p2[0]-p1[0])^2 + ... )`, with the
square-root function passed in (instantiated with `Real.sqrt` over `ℝ`). -/
def _edgeLen (sqrtF : F → F) (p1 p2 : F × F × F) : F :=
  sqrtF ((p2.1 - p1.1) * (p2.1 - p1.1) + (p2.2.1 - p1.2.1) * (p2.2.1 - p1.2.1) +
         (p2.2.2 - p1.2.2) * (p2.2.2 - p1.2.2))

/-- The edge-accumulation loop of `ctmVertexPrecisionRel()`: for each
triangle `i`, `p1` starts at corner 2 and the inner `j`-loop (unrolled here
as `j = 0, 1, 2`) threads `p1` through the corners, summing edge lengths and
counting edges.  Returns the accumulated sum and the edge count. -/
def _ctmEdgeWalk (sqrtF : F → F) (vertices : List F) (indices : List Nat)
    (triangleCount : Nat) : F × Nat :=
  (List.range triangleCount).foldl
    (fun st i =>
      let p1 := _vtx vertices (_idx indices (i * 3 + 2))
      let q0 := _vtx vertices (_idx indices (i * 3))
      let q1 := _vtx vertices (_idx indices (i * 3 + 1))
      let q2 := _vtx vertices (_idx indices (i * 3 + 2))
      (st.1 + _edgeLen sqrtF p1 q0 + _edgeLen sqrtF q0 q1 + _edgeLen sqrtF q1 q2,
       st.2 + 3))
    (0, 0)

/-- `ctmVertexPrecisionRel()`: derive the absolute precision from the mean
edge length.  Null mesh pointers (undefined behaviour in C) read as empty. -/
def ctmVertexPrecisionRel (sqrtF : F → F) (aContext : Option (CTMcontext F))
    (aRelPrecision : F) : Option (CTMcontext F) :=
  match aContext with
  | none => none
  | some self =>
    if self.mMode ≠ CTM_EXPORT then
      some { self with mError := CTM_INVALID_OPERATION }
    else if aRelPrecision ≤ 0 then
      some { self with mError := CTM_INVALID_ARGUMENT }
    else
      let walk := _ctmEdgeWalk sqrtF (self.mVertices.getD [])
        (self.mIndices.getD []) self.mTriangleCount
      if walk.2 = 0 then
        some { self with mError := CTM_INVALID_MESH }
      else
        some { self with mVertexPrecision := aRelPrecision * (walk.1 / (walk.2 : F)) }

/-- `ctmFileComment()`.  The old comment is released and nulled before the
new string is copied; `allocOk` models whether the `malloc` for the copy
succeeds. -/
def ctmFileComment (allocOk : Bool) (aContext : Option (CTMcontext F))
    (aFileComment : Option (List Nat)) : Option (CTMcontext F) :=
  match aContext with
  | none => none
  | some self =>
    if self.mMode ≠ CTM_EXPORT then
      some { self with mError := CTM_INVALID_OPERATION }
    else
      let self := { self with mFileComment := none }
      match aFileComment with
      | none => some self
      | some cs =>
        if cs.length = 0 then some self
        else if allocOk then some { self with mFileComment := some cs }
        else some { self with mError := CTM_OUT_OF_MEMORY }

/-- `ctmDefineMesh()`: mode gate, argument check, then clear-and-set.  Note
the order: the argument check precedes `_ctmClearMesh`, so a rejected call
leaves the previously attached mesh in place. -/
def ctmDefineMesh (aContext : Option (CTMcontext F))
    (aVertices : Option (List F)) (aVertexCount : Nat)
    (aIndices : Option (List Nat)) (aTriangleCount : Nat)
    (aNormals : Option (List F)) : Option (CTMcontext F) :=
  match aContext with
  | none => none
  | some self =>
    if self.mMode ≠ CTM_EXPORT then
      some { self with mError := CTM_INVALID_OPERATION }
    else if aVertices.isNone ∨ aIndices.isNone ∨ aVertexCount = 0 ∨ aTriangleCount = 0 then
      some { self with mError := CTM_INVALID_ARGUMENT }
    else
      let self := _ctmClearMesh self
      some { self with
        mVertices := aVertices, mVertexCount := aVertexCount,
        mIndices := aIndices, mTriangleCount := aTriangleCount,
        mNormals := aNormals }

/-- `ctmAddTexMap()`: the body is the single statement `return CTM_NONE;`
(marked `FIXME!` in the source) — no error is recorded and no map attached. -/
def ctmAddTexMap (aContext : Option (CTMcontext F))
    (aTexCoords : Option (List F)) (aName : Option (List Nat)) :
    Nat × Option (CTMcontext F) :=
  (CTM_NONE, aContext)

/-- `ctmAddAttribMap()`: likewise a bare `return CTM_NONE;`. -/
def ctmAddAttribMap (aContext : Option (CTMcontext F))
    (aAttribValues : Option (List F)) (aName : Option (List Nat)) :
    Nat × Option (CTMcontext F) :=
  (CTM_NONE, aContext)

/-- Modelled from the spec: the stream layer (`stream.c` is not under
`src/`).  A 32-bit unsigned integer occupies four consecutive stream bytes,
least significant first; reading returns the value and the remaining
stream, with bytes past the end of the stream reading as 0. -/
def _ctmStreamReadUINT (s : List Nat) : Nat × List Nat :=
  (s.getD 0 0 + 256 * s.getD 1 0 + 65536 * s.getD 2 0 + 16777216 * s.getD 3 0,
   s.drop 4)

/-- Modelled from the spec: writing a 32-bit unsigned integer produces its
four bytes, least significant first. -/
def _ctmStreamWriteUINT (v : Nat) : List Nat :=
  [v % 256, v / 256 % 256, v / 65536 % 256, v / 16777216 % 256]

/-- Modelled from the spec: a length-prefixed string is a 32-bit length
followed by that many bytes; a null or empty string is length 0. -/
def _ctmStreamWriteSTRING (s : Option (List Nat)) : List Nat :=
  match s with
  | none => _ctmStreamWriteUINT 0
  | some cs => _ctmStreamWriteUINT cs.length ++ cs

/-- Modelled from the spec: reading a length-prefixed string; length 0
yields an absent string. -/
def _ctmStreamReadSTRING (s : List Nat) : Option (List Nat) × List Nat :=
  let r := _ctmStreamReadUINT s
  if r.1 = 0 then (none, r.2) else (some (r.2.take r.1), r.2.drop r.1)

/-- Modelled from the spec: the `FOURCC` macro of `internal.h` (not under
`src/`) packs four bytes into one 32-bit token, consistently with the
32-bit integer byte order above. -/
def FOURCC (a b c d : Nat) : Nat := a + 256 * b + 65536 * c + 16777216 * d

/-- The token `FOURCC("OCTM")` (bytes `O`, `C`, `T`, `M`). -/
def FOURCC_OCTM : Nat := FOURCC 79 67 84 77

/-- The raw-method tag (bytes `R`, `A`, `W`, 0). -/
def FOURCC_RAW : Nat := FOURCC 82 65 87 0

/-- The MG1-method tag (bytes `M`, `G`, `1`, 0). -/
def FOURCC_MG1 : Nat := FOURCC 77 71 49 0

/-- The MG2-method tag (bytes `M`, `G`, `2`, 0). -/
def FOURCC_MG2 : Nat := FOURCC 77 71 50 0

/-- Modelled from the spec: `_CTM_FORMAT_VERSION` of `internal.h` (not under
`src/`), the single supported format version. -/
def _CTM_FORMAT_VERSION : Nat := 1

/-- Modelled from the spec: `_CTM_HAS_NORMALS_BIT` — bit 0 of the header
flags word marks the presence of normals. -/
def _CTM_HAS_NORMALS_BIT : Nat := 1

/-- The tail of `ctmLoadCustom()` after the method tag has been parsed:
read counts (non-zero checks), map counts, flags and comment, allocate the
mesh arrays (allocation is modelled as a zero-initialised list of the
allocated length and assumed to succeed — the out-of-memory paths are not
exercised by any claim below), then dispatch to the codec reader. -/
def _ctmLoadRest (codecs : Codecs F) (self : CTMcontext F) (s : List Nat) :
    Option (CTMcontext F) :=
  let r4 := _ctmStreamReadUINT s
  let c1 := { self with mVertexCount := r4.1 }
  if c1.mVertexCount = 0 then some { c1 with mError := CTM_FORMAT_ERROR }
  else
    let r5 := _ctmStreamReadUINT r4.2
    let c2 := { c1 with mTriangleCount := r5.1 }
    if c2.mTriangleCount = 0 then some { c2 with mError := CTM_FORMAT_ERROR }
    else
      let r6 := _ctmStreamReadUINT r5.2
      let c3 := { c2 with mTexMapCount := r6.1 }
      let r7 := _ctmStreamReadUINT r6.2
      let c4 := { c3 with mAttribMapCount := r7.1 }
      let r8 := _ctmStreamReadUINT r7.2
      let flags := r8.1
      let r9 := _ctmStreamReadSTRING r8.2
      let c5 := { c4 with mFileComment := r9.1 }
      let c6 := { c5 with mVertices := some (List.replicate (c5.mVertexCount * 3) (0 : F)) }
      let c7 := { c6 with mIndices := some (List.replicate (c6.mTriangleCount * 3) 0) }
      let c8 := if flags % 2 = 1 then
          { c7 with mNormals := some (List.replicate (c7.mVertexCount * 3) (0 : F)) }
        else c7
      some (match c8.mMethod with
        | CTM_METHOD_RAW => codecs.uncompressRAW c8 r9.2
        | CTM_METHOD_MG1 => codecs.uncompressMG1 c8 r9.2
        | CTM_METHOD_MG2 => codecs.uncompressMG2 c8 r9.2)

/-- `ctmLoadCustom()`: mode gate, clear the old mesh, then validate the
header (magic token, format version, method tag) before `_ctmLoadRest`. -/
def ctmLoadCustom (codecs : Codecs F) (aContext : Option (CTMcontext F))
    (stream : List Nat) : Option (CTMcontext F) :=
  match aContext with
  | none => none
  | some self0 =>
    if self0.mMode ≠ CTM_IMPORT then
      some { self0 with mError := CTM_INVALID_OPERATION }
    else
      let self := _ctmClearMesh self0
      let r1 := _ctmStreamReadUINT stream
      if r1.1 ≠ FOURCC_OCTM then some { self with mError := CTM_FORMAT_ERROR }
      else
        let r2 := _ctmStreamReadUINT r1.2
        if r2.1 ≠ _CTM_FORMAT_VERSION then some { self with mError := CTM_FORMAT_ERROR }
        else
          let r3 := _ctmStreamReadUINT r2.2
          if r3.1 = FOURCC_RAW then
            _ctmLoadRest codecs { self with mMethod := CTM_METHOD_RAW } r3.2
          else if r3.1 = FOURCC_MG1 then
            _ctmLoadRest codecs { self with mMethod := CTM_METHOD_MG1 } r3.2
          else if r3.1 = FOURCC_MG2 then
            _ctmLoadRest codecs { self with mMethod := CTM_METHOD_MG2 } r3.2
          else
            some { self with mError := CTM_FORMAT_ERROR }

/-- The method tag bytes written by the `switch` in `ctmSaveCustom()`
(`"RAW\0"`, `"MG1\0"`, `"MG2\0"`). -/
def _ctmMethodTag (m : CTMmethod) : List Nat :=
  match m with
  | CTM_METHOD_RAW => [82, 65, 87, 0]
  | CTM_METHOD_MG1 => [77, 71, 49, 0]
  | CTM_METHOD_MG2 => [77, 71, 50, 0]

/-- The codec writer dispatch at the end of `ctmSaveCustom()`. -/
def _ctmCompressDispatch (codecs : Codecs F) (self : CTMcontext F) : List Nat :=
  match self.mMethod with
  | CTM_METHOD_RAW => codecs.compressRAW self
  | CTM_METHOD_MG1 => codecs.compressMG1 self
  | CTM_METHOD_MG2 => codecs.compressMG2 self

/-- `ctmSaveCustom()`: mode gate, mesh-integrity check, then write the
header and dispatch to the codec writer.  Returns the context as the call
leaves it and the bytes written to the stream. -/
def ctmSaveCustom (codecs : Codecs F) (aContext : Option (CTMcontext F)) :
    Option (CTMcontext F) × List Nat :=
  match aContext with
  | none => (none, [])
  | some self =>
    if self.mMode ≠ CTM_EXPORT then
      (some { self with mError := CTM_INVALID_OPERATION }, [])
    else if self.mVertices.isNone ∨ self.mIndices.isNone ∨
        self.mVertexCount < 1 ∨ self.mTriangleCount < 1 then
      (some { self with mError := CTM_INVALID_MESH }, [])
    else
      let flags := if self.mNormals.isSome then _CTM_HAS_NORMALS_BIT else 0
      let out :=
        [79, 67, 84, 77] ++
        _ctmStreamWriteUINT _CTM_FORMAT_VERSION ++
        _ctmMethodTag self.mMethod ++
        _ctmStreamWriteUINT self.mVertexCount ++
        _ctmStreamWriteUINT self.mTriangleCount ++
        _ctmStreamWriteUINT self.mTexMapCount ++
        _ctmStreamWriteUINT self.mAttribMapCount ++
        _ctmStreamWriteUINT flags ++
        _ctmStreamWriteSTRING self.mFileComment
      (some self, out ++ _ctmCompressDispatch codecs self)

/-- The header layout as the spec's table states it: magic token, format
version, method tag, vertex count, triangle count, texture-map count,
attribute-map count, flags word (bit 0 = normals present), length-prefixed
comment. -/
def ctmHeaderBytes (self : CTMcontext F) : List Nat :=
  [79, 67, 84, 77] ++
  _ctmStreamWriteUINT _CTM_FORMAT_VERSION ++
  _ctmMethodTag self.mMethod ++
  _ctmStreamWriteUINT self.mVertexCount ++
  _ctmStreamWriteUINT self.mTriangleCount ++
  _ctmStreamWriteUINT self.mTexMapCount ++
  _ctmStreamWriteUINT self.mAttribMapCount ++
  _ctmStreamWriteUINT (if self.mNormals.isSome then 1 else 0) ++
  _ctmStreamWriteSTRING self.mFileComment

/-- The flags word `ctmSaveCustom()` computes. -/
def _ctmSaveFlags (self : CTMcontext F) : Nat :=
  if self.mNormals.isSome then _CTM_HAS_NORMALS_BIT else 0

/-- Spec-side predicate: the stream's fixed header fails validation — the
magic token is wrong, or the version is unsupported, or the method tag is
unrecognized, or the vertex or triangle count field is zero. -/
def _ctmBadHeader (stream : List Nat) : Bool :=
  let r1 := _ctmStreamReadUINT stream
  let r2 := _ctmStreamReadUINT r1.2
  let r3 := _ctmStreamReadUINT r2.2
  let r4 := _ctmStreamReadUINT r3.2
  let r5 := _ctmStreamReadUINT r4.2
  r1.1 != FOURCC_OCTM || r2.1 != _CTM_FORMAT_VERSION ||
  (r3.1 != FOURCC_RAW && r3.1 != FOURCC_MG1 && r3.1 != FOURCC_MG2) ||
  r4.1 == 0 || r5.1 == 0

/-- The three boundary edges of triangle `i` — corner 0 to 1, corner 1 to
2, and the wrap edge from the last corner back to the first — as the spec
describes the relative-precision derivation. -/
def _ctmTriangleEdgeSum (sqrtF : F → F) (vertices : List F)
    (indices : List Nat) (i : Nat) : F :=
  _edgeLen sqrtF (_vtx vertices (_idx indices (i * 3)))
                 (_vtx vertices (_idx indices (i * 3 + 1))) +
  _edgeLen sqrtF (_vtx vertices (_idx indices (i * 3 + 1)))
                 (_vtx vertices (_idx indices (i * 3 + 2))) +
  _edgeLen sqrtF (_vtx vertices (_idx indices (i * 3 + 2)))
                 (_vtx vertices (_idx indices (i * 3)))

/-- A concrete Export-mode context over `ℚ` with a valid mesh attached:
three vertices, one triangle, no normals, comment `OLD` (bytes 79 76 68). -/
def exCtx : CTMcontext ℚ :=
  { mMode := CTM_EXPORT
    mError := CTM_NO_ERROR
    mMethod := CTM_METHOD_MG1
    mVertexPrecision := 1 / 1024
    mVertexCount := 3
    mTriangleCount := 1
    mVertices := some [0, 0, 0, 1, 0, 0, 0, 1, 0]
    mIndices := some [0, 1, 2]
    mNormals := none
    mTexMaps := []
    mTexMapCount := 0
    mAttribMaps := []
    mAttribMapCount := 0
    mFileComment := some [79, 76, 68] }

/-- A concrete Import-mode context over `ℚ` carrying the observable traces
of a previously loaded mesh (non-zero counts, attached arrays). -/
def imCtx : CTMcontext ℚ :=
  { mMode := CTM_IMPORT
    mError := CTM_NO_ERROR
    mMethod := CTM_METHOD_RAW
    mVertexPrecision := 1 / 1024
    mVertexCount := 2
    mTriangleCount := 1
    mVertices := some [0, 0, 0, 1, 1, 1]
    mIndices := some [0, 1, 0]
    mNormals := none
    mTexMaps := []
    mTexMapCount := 0
    mAttribMaps := []
    mAttribMapCount := 0
    mFileComment := none }

/-- A concrete Export-mode context over `ℚ` holding two texture maps and
one attribute map, counts matching the list lengths. -/
def texCtx : CTMcontext ℚ :=
  { mMode := CTM_EXPORT
    mError := CTM_NO_ERROR
    mMethod := CTM_METHOD_MG1
    mVertexPrecision := 1 / 1024
    mVertexCount := 2
    mTriangleCount := 1
    mVertices := some [0, 0, 0, 1, 0, 0]
    mIndices := some [0, 1, 1]
    mNormals := none
    mTexMaps := [⟨some [85], some [1, 2, 3, 4]⟩, ⟨none, some [5, 6, 7, 8]⟩]
    mTexMapCount := 2
    mAttribMaps := [⟨some [65], some [9, 10]⟩]
    mAttribMapCount := 1
    mFileComment := none }

/-- A concrete Export-mode context over `ℝ` holding a single equilateral
triangle of side `√2`: vertices `(0,0,0)`, `(1,1,0)`, `(1,0,1)` are
pairwise at distance `√2`.  (Over `ℝ` the precision field's value is not
executable; this context exists only to be reasoned about.) -/
noncomputable def eqTriCtx : CTMcontext ℝ :=
  { mMode := CTM_EXPORT
    mError := CTM_NO_ERROR
    mMethod := CTM_METHOD_MG1
    mVertexPrecision := 1 / 1024
    mVertexCount := 3
    mTriangleCount := 1
    mVertices := some [0, 0, 0, 1, 1, 0, 1, 0, 1]
    mIndices := some [0, 1, 2]
    mNormals := none
    mTexMaps := []
    mTexMapCount := 0
    mAttribMaps := []
    mAttribMapCount := 0
    mFileComment := none }

/-- A concrete codec layer over `ℚ`: constant payloads, readers that leave
the context unchanged. -/
def qCodecs : Codecs ℚ :=
  { compressRAW := fun _ => [10]
    compressMG1 := fun _ => [11]
    compressMG2 := fun _ => [12]
    uncompressRAW := fun c _ => c
    uncompressMG1 := fun c _ => c
    uncompressMG2 := fun c _ => c }

/-- A second, observably different codec layer over `ℚ`: its readers mark
the context, so any dispatch into it would be visible. -/
def qCodecsB : Codecs ℚ :=
  { compressRAW := fun _ => [20]
    compressMG1 := fun _ => [21]
    compressMG2 := fun _ => [22]
    uncompressRAW := fun c _ => { c with mError := CTM_FILE_ERROR }
    uncompressMG1 := fun c _ => { c with mError := CTM_FILE_ERROR }
    uncompressMG2 := fun c _ => { c with mError := CTM_FILE_ERROR } }

theorem _ctmWalkMap_get (maps : List (FloatMap F)) (i k : Nat) :
    _ctmWalkMap maps i (i + k) = maps[k]? := by
  induction maps generalizing i k with
  | nil => simp [_ctmWalkMap]
  | cons m rest ih =>
    cases k with
    | zero => simp [_ctmWalkMap]
    | succ k =>
      rw [_ctmWalkMap, if_neg (by omega)]
      rw [show i + (k + 1) = (i + 1) + k by omega, ih (i + 1) k]
      simp

theorem _ctmEdgeWalk_eq (sqrtF : F → F) (vs : List F) (ix : List Nat) (T : Nat) :
    _ctmEdgeWalk sqrtF vs ix T =
      (∑ i ∈ Finset.range T, _ctmTriangleEdgeSum sqrtF vs ix i, 3 * T) := by
  induction T with
  | zero => simp [_ctmEdgeWalk]
  | succ n ih =>
    rw [_ctmEdgeWalk] at ih ⊢
    rw [List.range_succ, List.foldl_append, List.foldl_cons, List.foldl_nil, ih]
    rw [Finset.sum_range_succ, _ctmTriangleEdgeSum]
    refine Prod.ext ?_ ?_
    · dsimp only
      ring
    · dsimp only
      omega

theorem _ctmLoadRest_bad (codecs codecs2 : Codecs F) (c : CTMcontext F)
    (s : List Nat) (hv : c.mVertices = none) (hi : c.mIndices = none)
    (hn : c.mNormals = none) (ht : c.mTexMaps = []) (ha : c.mAttribMaps = [])
    (hz : (_ctmStreamReadUINT s).1 = 0 ∨
      (_ctmStreamReadUINT (_ctmStreamReadUINT s).2).1 = 0) :
    _ctmLoadRest codecs2 c s = _ctmLoadRest codecs c s ∧
    (_ctmLoadRest codecs c s).map CTMcontext.mError = some CTM_FORMAT_ERROR ∧
    (_ctmLoadRest codecs c s).map CTMcontext.mVertices = some none ∧
    (_ctmLoadRest codecs c s).map CTMcontext.mIndices = some none ∧
    (_ctmLoadRest codecs c s).map CTMcontext.mNormals = some none ∧
    (_ctmLoadRest codecs c s).map CTMcontext.mTexMaps = some [] ∧
    (_ctmLoadRest codecs c s).map CTMcontext.mAttribMaps = some [] := by
  by_cases h4 : (_ctmStreamReadUINT s).1 = 0
  · simp [_ctmLoadRest, h4, hv, hi, hn, ht, ha]
  · have h5 : (_ctmStreamReadUINT (_ctmStreamReadUINT s).2).1 = 0 := hz.resolve_left h4
    simp [_ctmLoadRest, h4, h5, hv, hi, hn, ht, ha]

theorem ctmLoadCustom_badHeader (codecs codecs2 : Codecs F) (ctx : CTMcontext F)
    (stream : List Nat) (h : ctx.mMode = CTM_IMPORT)
    (hbad : _ctmBadHeader stream = true) :
    ctmLoadCustom codecs2 (some ctx) stream = ctmLoadCustom codecs (some ctx) stream ∧
    (ctmLoadCustom codecs (some ctx) stream).map CTMcontext.mError = some CTM_FORMAT_ERROR ∧
    (ctmLoadCustom codecs (some ctx) stream).map CTMcontext.mVertices = some none ∧
    (ctmLoadCustom codecs (some ctx) stream).map CTMcontext.mIndices = some none ∧
    (ctmLoadCustom codecs (some ctx) stream).map CTMcontext.mNormals = some none ∧
    (ctmLoadCustom codecs (some ctx) stream).map CTMcontext.mTexMaps = some [] ∧
    (ctmLoadCustom codecs (some ctx) stream).map CTMcontext.mAttribMaps = some [] := by
  by_cases h1 : (_ctmStreamReadUINT stream).1 = FOURCC_OCTM
  case neg => simp [ctmLoadCustom, h, h1, _ctmClearMesh]
  case pos =>
  by_cases h2 : (_ctmStreamReadUINT (_ctmStreamReadUINT stream).2).1 = _CTM_FORMAT_VERSION
  case neg => simp [ctmLoadCustom, h, h1, h2, _ctmClearMesh]
  case pos =>
  by_cases hR : (_ctmStreamReadUINT (_ctmStreamReadUINT (_ctmStreamReadUINT stream).2).2).1 = FOURCC_RAW
  case pos =>
    have hz : (_ctmStreamReadUINT (_ctmStreamReadUINT (_ctmStreamReadUINT (_ctmStreamReadUINT stream).2).2).2).1 = 0 ∨
        (_ctmStreamReadUINT (_ctmStreamReadUINT (_ctmStreamReadUINT (_ctmStreamReadUINT (_ctmStreamReadUINT stream).2).2).2).2).1 = 0 := by
      simp [_ctmBadHeader, h1, h2, hR] at hbad
      omega
    simp only [ctmLoadCustom, h, h1, h2, hR]
    simp only [ne_eq, not_true_eq_false, if_false, ite_true, if_pos rfl]
    exact _ctmLoadRest_bad codecs codecs2 _ _ rfl rfl rfl rfl rfl hz
  case neg =>
  by_cases hM1 : (_ctmStreamReadUINT (_ctmStreamReadUINT (_ctmStreamReadUINT stream).2).2).1 = FOURCC_MG1
  case pos =>
    have hz : (_ctmStreamReadUINT (_ctmStreamReadUINT (_ctmStreamReadUINT (_ctmStreamReadUINT stream).2).2).2).1 = 0 ∨
        (_ctmStreamReadUINT (_ctmStreamReadUINT (_ctmStreamReadUINT (_ctmStreamReadUINT (_ctmStreamReadUINT stream).2).2).2).2).1 = 0 := by
      simp [_ctmBadHeader, h1, h2, hM1] at hbad
      omega
    simp only [ctmLoadCustom, h, h1, h2, hR, hM1]
    simp only [ne_eq, not_true_eq_false, if_false, ite_true, ite_false, if_pos rfl]
    exact _ctmLoadRest_bad codecs codecs2 _ _ rfl rfl rfl rfl rfl hz
  case neg =>
  by_cases hM2 : (_ctmStreamReadUINT (_ctmStreamReadUINT (_ctmStreamReadUINT stream).2).2).1 = FOURCC_MG2
  case pos =>
    have hz : (_ctmStreamReadUINT (_ctmStreamReadUINT (_ctmStreamReadUINT (_ctmStreamReadUINT stream).2).2).2).1 = 0 ∨
        (_ctmStreamReadUINT (_ctmStreamReadUINT (_ctmStreamReadUINT (_ctmStreamReadUINT (_ctmStreamReadUINT stream).2).2).2).2).1 = 0 := by
      simp [_ctmBadHeader, h1, h2, hR, hM2] at hbad
      omega
    simp only [ctmLoadCustom, h, h1, h2, hR, hM1, hM2]
    simp only [ne_eq, not_true_eq_false, if_false, ite_true, ite_false, if_pos rfl]
    exact _ctmLoadRest_bad codecs codecs2 _ _ rfl rfl rfl rfl rfl hz
  case neg =>
    simp [ctmLoadCustom, h, h1, h2, hR, hM1, hM2, _ctmClearMesh]

/-- C1: every Export-only mutating operation (`ctmCompressionMethod`,
`ctmVertexPrecision`, `ctmVertexPrecisionRel`, `ctmFileComment`,
`ctmDefineMesh`, `ctmSaveCustom`) called on an Import-mode context sets the
error register to invalid-operation and changes no other Context field (and
`ctmSaveCustom` writes no bytes); symmetrically, `ctmLoadCustom` on an
Export-mode context sets invalid-operation and changes no other field. -/
theorem ctm_mode_gating (sqrtF : F → F) (allocOk : Bool) (codecs : Codecs F)
    (ctxI ctxE : CTMcontext F) (hI : ctxI.mMode = CTM_IMPORT)
    (hE : ctxE.mMode = CTM_EXPORT) (m : CTMmethod) (p r : F)
    (c : Option (List Nat)) (v nrm : Option (List F)) (vc tc : Nat)
    (ix : Option (List Nat)) (s : List Nat) :
    ctmCompressionMethod (some ctxI) m = some { ctxI with mError := CTM_INVALID_OPERATION } ∧
    ctmVertexPrecision (some ctxI) p = some { ctxI with mError := CTM_INVALID_OPERATION } ∧
    ctmVertexPrecisionRel sqrtF (some ctxI) r = some { ctxI with mError := CTM_INVALID_OPERATION } ∧
    ctmFileComment allocOk (some ctxI) c = some { ctxI with mError := CTM_INVALID_OPERATION } ∧
    ctmDefineMesh (some ctxI) v vc ix tc nrm = some { ctxI with mError := CTM_INVALID_OPERATION } ∧
    ctmSaveCustom codecs (some ctxI) = (some { ctxI with mError := CTM_INVALID_OPERATION }, []) ∧
    ctmLoadCustom codecs (some ctxE) s = some { ctxE with mError := CTM_INVALID_OPERATION } := by
  refine ⟨?_, ?_, ?_, ?_, ?_, ?_, ?_⟩ <;>
    simp [ctmCompressionMethod, ctmVertexPrecision, ctmVertexPrecisionRel,
      ctmFileComment, ctmDefineMesh, ctmSaveCustom, ctmLoadCustom, hI, hE]

theorem ctm_mode_gating_witness :
    ctmCompressionMethod (some imCtx) CTM_METHOD_RAW = some { imCtx with mError := CTM_INVALID_OPERATION } ∧
    ctmVertexPrecision (some imCtx) 1 = some { imCtx with mError := CTM_INVALID_OPERATION } ∧
    ctmVertexPrecisionRel id (some imCtx) 1 = some { imCtx with mError := CTM_INVALID_OPERATION } ∧
    ctmFileComment true (some imCtx) none = some { imCtx with mError := CTM_INVALID_OPERATION } ∧
    ctmDefineMesh (some imCtx) none 0 none 0 none = some { imCtx with mError := CTM_INVALID_OPERATION } ∧
    ctmSaveCustom qCodecs (some imCtx) = (some { imCtx with mError := CTM_INVALID_OPERATION }, []) ∧
    ctmLoadCustom qCodecs (some exCtx) [] = some { exCtx with mError := CTM_INVALID_OPERATION } :=
  ctm_mode_gating id true qCodecs imCtx exCtx rfl rfl CTM_METHOD_RAW 1 1 none
    none none 0 0 none []

/-- C2: the error register is a single slot with destructive read — for any
non-null context, `ctmError` returns the pending value and resets the slot
to no-error, so an immediately following second `ctmError` returns
no-error; and a failing operation (here `ctmGetInteger` on an unrecognized
property) overwrites whatever error was pending. -/
theorem ctm_error_register (ctx : CTMcontext F) :
    ctmError (some ctx) = (ctx.mError, some { ctx with mError := CTM_NO_ERROR }) ∧
    (ctmError (ctmError (some ctx)).2).1 = CTM_NO_ERROR ∧
    (ctmGetInteger (some ctx) CTM_NONE).2 = some { ctx with mError := CTM_INVALID_ARGUMENT } := by
  refine ⟨rfl, rfl, ?_⟩
  simp [ctmGetInteger, CTM_NONE, CTM_VERTEX_COUNT, CTM_TRIANGLE_COUNT,
    CTM_TEX_MAP_COUNT, CTM_ATTRIB_MAP_COUNT, CTM_HAS_NORMALS]

/-- C9 (behaviour the code actually has): `ctmAddTexMap` and
`ctmAddAttribMap` return `CTM_NONE` with the context completely untouched —
no usable handle, no error recorded, no map attached (both bodies are a bare
`return CTM_NONE;` marked `FIXME!`). -/
theorem ctm_addmap_silent (ctx : Option (CTMcontext F))
    (coords vals : Option (List F)) (nm nm2 : Option (List Nat)) :
    ctmAddTexMap ctx coords nm = (CTM_NONE, ctx) ∧
    ctmAddAttribMap ctx vals nm2 = (CTM_NONE, ctx) :=
  ⟨rfl, rfl⟩

/-- C10 counterexample: the claim says every read accessor returns a
zero-equivalent value on a null handle, but `ctmError` on a null handle
returns `CTM_INVALID_CONTEXT`, which is a distinct error code, not the
zero-equivalent `CTM_NO_ERROR`. -/
theorem ctm_null_handle_counterexample :
    (ctmError (F := ℚ) none).1 = CTM_INVALID_CONTEXT ∧
    CTM_INVALID_CONTEXT ≠ CTM_NO_ERROR :=
  ⟨rfl, by decide⟩

/-- C10 as amended: a null handle is tolerated by every public operation —
`ctmGetInteger`, `ctmGetFloatArray`, `ctmGetIntegerArray` and `ctmGetString`
return a zero-equivalent value, `ctmError` returns `CTM_INVALID_CONTEXT`
(not a zero-equivalent), and all mutators (`ctmCompressionMethod`,
`ctmVertexPrecision`, `ctmVertexPrecisionRel`, `ctmFileComment`,
`ctmDefineMesh`, `ctmLoadCustom`, `ctmSaveCustom`, `ctmFreeContext`) return
without effect. -/
theorem ctm_null_handle_tolerance (sqrtF : F → F) (allocOk : Bool)
    (codecs : Codecs F) (p vc tc : Nat) (m : CTMmethod) (x y : F)
    (c : Option (List Nat)) (v nrm : Option (List F))
    (ix : Option (List Nat)) (s : List Nat) :
    ctmGetInteger (F := F) none p = (0, none) ∧
    ctmGetFloatArray (F := F) none p = (none, none) ∧
    ctmGetIntegerArray (F := F) none p = (none, none) ∧
    ctmGetString (F := F) none p = (none, none) ∧
    ctmError (F := F) none = (CTM_INVALID_CONTEXT, none) ∧
    ctmCompressionMethod (F := F) none m = none ∧
    ctmVertexPrecision none x = none ∧
    ctmVertexPrecisionRel sqrtF none y = none ∧
    ctmFileComment (F := F) allocOk none c = none ∧
    ctmDefineMesh none v vc ix tc nrm = none ∧
    ctmLoadCustom codecs none s = none ∧
    ctmSaveCustom codecs none = (none, []) ∧
    ctmFreeContext (F := F) none = () :=
  ⟨rfl, rfl, rfl, rfl, rfl, rfl, rfl, rfl, rfl, rfl, rfl, rfl, rfl⟩

/-- C5 counterexample: the claim says a rejected `ctmDefineMesh` call
"leaves the previous mesh cleared", but the argument check precedes the
clear, so the previously attached mesh survives: on a context with a mesh
attached, a call with a null vertex array sets invalid-argument and the old
vertex array is still there (in particular the result is not cleared). -/
theorem ctm_define_mesh_counterexample :
    ctmDefineMesh (some exCtx) none 5 (some [0, 1, 2]) 1 none =
      some { exCtx with mError := CTM_INVALID_ARGUMENT } ∧
    (ctmDefineMesh (some exCtx) none 5 (some [0, 1, 2]) 1 none).map CTMcontext.mVertices ≠
      some none ∧
    exCtx.mVertices = some [0, 0, 0, 1, 0, 0, 0, 1, 0] := by
  refine ⟨rfl, ?_, rfl⟩
  decide

/-- C5 as amended: for every Export-mode context, `ctmDefineMesh` with a
null vertex array, null index array, zero vertex count or zero triangle
count sets invalid-argument and leaves the context — including any
previously attached mesh — otherwise unchanged (the clear happens only
after validation, so the previous mesh is retained, not cleared); with
valid arguments it clears the previous mesh and attaches the supplied
borrowed arrays and counts, normals optional. -/
theorem ctm_define_mesh_validation (ctx : CTMcontext F)
    (h : ctx.mMode = CTM_EXPORT) (v nrm : Option (List F)) (vc tc : Nat)
    (ix : Option (List Nat)) :
    ((v.isNone ∨ ix.isNone ∨ vc = 0 ∨ tc = 0) →
      ctmDefineMesh (some ctx) v vc ix tc nrm =
        some { ctx with mError := CTM_INVALID_ARGUMENT }) ∧
    (v ≠ none → ix ≠ none → vc ≠ 0 → tc ≠ 0 →
      ctmDefineMesh (some ctx) v vc ix tc nrm =
        some { _ctmClearMesh ctx with
          mVertices := v, mVertexCount := vc, mIndices := ix,
          mTriangleCount := tc, mNormals := nrm }) := by
  constructor
  · rintro (hb | hb | hb | hb) <;> simp [ctmDefineMesh, h, hb]
  · intro hv hi hvc htc
    simp [ctmDefineMesh, h, Option.isNone_iff_eq_none, hv, hi, hvc, htc]

theorem ctm_define_mesh_validation_witness :
    ctmDefineMesh (some exCtx) (some [1, 2, 3]) 1 (some [0, 0, 0]) 1 none =
      some { _ctmClearMesh exCtx with
        mVertices := some [1, 2, 3], mVertexCount := 1,
        mIndices := some [0, 0, 0], mTriangleCount := 1, mNormals := none } ∧
    ctmDefineMesh (some exCtx) (some [1, 2, 3]) 0 (some [0, 0, 0]) 1 none =
      some { exCtx with mError := CTM_INVALID_ARGUMENT } := by
  constructor
  · exact (ctm_define_mesh_validation exCtx rfl (some [1, 2, 3]) none 1 1
      (some [0, 0, 0])).2 (by decide) (by decide) (by decide) (by decide)
  · exact (ctm_define_mesh_validation exCtx rfl (some [1, 2, 3]) none 0 1
      (some [0, 0, 0])).1 (by decide)

/-- C8 counterexample: the claim says a failing `ctmFileComment` leaves the
previously stored comment in place, but the old comment is released before
the copy is attempted, so an allocation failure leaves the comment null,
not the previous value. -/
theorem ctm_atomicity_counterexample :
    (ctmFileComment false (some exCtx) (some [78, 69, 87])).map CTMcontext.mFileComment =
      some none ∧
    exCtx.mFileComment = some [79, 76, 68] ∧
    (ctmFileComment false (some exCtx) (some [78, 69, 87])).map CTMcontext.mError =
      some CTM_OUT_OF_MEMORY :=
  ⟨rfl, rfl, rfl⟩

/-- C8 as amended: failing operations set the error register, but they are
not atomic with respect to prior state — `ctmFileComment` releases the old
comment before copying, so on allocation failure it reports out-of-memory
with the stored comment null (not the previous value); and `ctmLoadCustom`
clears the existing mesh before header validation, so a format-error load
leaves the mesh cleared (no arrays or maps attached), not as it was before
the call, and invokes no codec reader. -/
theorem ctm_failing_ops_state (ctxE ctxI : CTMcontext F)
    (hE : ctxE.mMode = CTM_EXPORT) (hI : ctxI.mMode = CTM_IMPORT)
    (cs : List Nat) (hcs : cs ≠ []) (stream : List Nat)
    (hbad : _ctmBadHeader stream = true) (codecs codecs2 : Codecs F) :
    ctmFileComment false (some ctxE) (some cs) =
      some { ctxE with mFileComment := none, mError := CTM_OUT_OF_MEMORY } ∧
    ctmLoadCustom codecs2 (some ctxI) stream = ctmLoadCustom codecs (some ctxI) stream ∧
    (ctmLoadCustom codecs (some ctxI) stream).map CTMcontext.mError = some CTM_FORMAT_ERROR ∧
    (ctmLoadCustom codecs (some ctxI) stream).map CTMcontext.mVertices = some none ∧
    (ctmLoadCustom codecs (some ctxI) stream).map CTMcontext.mIndices = some none ∧
    (ctmLoadCustom codecs (some ctxI) stream).map CTMcontext.mNormals = some none ∧
    (ctmLoadCustom codecs (some ctxI) stream).map CTMcontext.mTexMaps = some [] ∧
    (ctmLoadCustom codecs (some ctxI) stream).map CTMcontext.mAttribMaps = some [] := by
  obtain ⟨e1, e2, e3, e4, e5, e6, e7⟩ :=
    ctmLoadCustom_badHeader codecs codecs2 ctxI stream hI hbad
  refine ⟨?_, e1, e2, e3, e4, e5, e6, e7⟩
  simp [ctmFileComment, hE, hcs]

theorem ctm_failing_ops_state_witness :
    ctmFileComment false (some exCtx) (some [78, 69, 87]) =
      some { exCtx with mFileComment := none, mError := CTM_OUT_OF_MEMORY } ∧
    ctmLoadCustom qCodecsB (some imCtx) [] = ctmLoadCustom qCodecs (some imCtx) [] ∧
    (ctmLoadCustom qCodecs (some imCtx) []).map CTMcontext.mError = some CTM_FORMAT_ERROR ∧
    (ctmLoadCustom qCodecs (some imCtx) []).map CTMcontext.mVertices = some none ∧
    (ctmLoadCustom qCodecs (some imCtx) []).map CTMcontext.mIndices = some none ∧
    (ctmLoadCustom qCodecs (some imCtx) []).map CTMcontext.mNormals = some none ∧
    (ctmLoadCustom qCodecs (some imCtx) []).map CTMcontext.mTexMaps = some [] ∧
    (ctmLoadCustom qCodecs (some imCtx) []).map CTMcontext.mAttribMaps = some [] :=
  ctm_failing_ops_state exCtx imCtx rfl rfl [78, 69, 87] (by decide) []
    (by decide) qCodecs qCodecsB

/-- C4: an Import-mode `ctmLoadCustom` on a stream whose magic token is not
`OCTM`, or whose version differs from the supported format version, or
whose method tag is unrecognized, or whose vertex-count or triangle-count
field is zero, sets format-error and returns with no vertex, index or
normal array attached, and without invoking any codec reader (the result is
the same for every codec layer). -/
theorem ctm_load_header_validation (codecs codecs2 : Codecs F)
    (ctx : CTMcontext F) (stream : List Nat) (h : ctx.mMode = CTM_IMPORT)
    (hbad : _ctmBadHeader stream = true) :
    (ctmLoadCustom codecs (some ctx) stream).map CTMcontext.mError = some CTM_FORMAT_ERROR ∧
    (ctmLoadCustom codecs (some ctx) stream).map CTMcontext.mVertices = some none ∧
    (ctmLoadCustom codecs (some ctx) stream).map CTMcontext.mIndices = some none ∧
    (ctmLoadCustom codecs (some ctx) stream).map CTMcontext.mNormals = some none ∧
    ctmLoadCustom codecs2 (some ctx) stream = ctmLoadCustom codecs (some ctx) stream := by
  obtain ⟨e1, e2, e3, e4, e5, e6, e7⟩ :=
    ctmLoadCustom_badHeader codecs codecs2 ctx stream h hbad
  exact ⟨e2, e3, e4, e5, e1⟩

theorem ctm_load_header_validation_witness :
    (ctmLoadCustom qCodecs (some imCtx) [79, 67, 84, 77, 9, 9, 9, 9]).map CTMcontext.mError =
      some CTM_FORMAT_ERROR ∧
    (ctmLoadCustom qCodecs (some imCtx) [79, 67, 84, 77, 9, 9, 9, 9]).map CTMcontext.mVertices =
      some none ∧
    (ctmLoadCustom qCodecs (some imCtx) [79, 67, 84, 77, 9, 9, 9, 9]).map CTMcontext.mIndices =
      some none ∧
    (ctmLoadCustom qCodecs (some imCtx) [79, 67, 84, 77, 9, 9, 9, 9]).map CTMcontext.mNormals =
      some none ∧
    ctmLoadCustom qCodecsB (some imCtx) [79, 67, 84, 77, 9, 9, 9, 9] =
      ctmLoadCustom qCodecs (some imCtx) [79, 67, 84, 77, 9, 9, 9, 9] :=
  ctm_load_header_validation qCodecs qCodecsB imCtx [79, 67, 84, 77, 9, 9, 9, 9]
    rfl (by decide)

/-- C3: an Export-mode `ctmSaveCustom` on a context with null vertices,
null indices, zero vertex count or zero triangle count sets invalid-mesh
and writes no bytes; on a valid mesh it writes exactly, in order, the magic
token `OCTM`, the format-version integer, the 4-byte method tag of the
selected method, vertex count, triangle count, texture-map count,
attribute-map count, the flags word, and the length-prefixed comment, and
then appends the payload of the codec writer matching the selected method;
bit 0 of the flags word is set iff normals are present. -/
theorem ctm_save_header (codecs : Codecs F) (ctx : CTMcontext F)
    (h : ctx.mMode = CTM_EXPORT) :
    ((ctx.mVertices = none ∨ ctx.mIndices = none ∨ ctx.mVertexCount = 0 ∨ ctx.mTriangleCount = 0) →
      ctmSaveCustom codecs (some ctx) = (some { ctx with mError := CTM_INVALID_MESH }, [])) ∧
    (ctx.mVertices ≠ none → ctx.mIndices ≠ none → ctx.mVertexCount ≠ 0 → ctx.mTriangleCount ≠ 0 →
      ctmSaveCustom codecs (some ctx) =
        (some ctx, ctmHeaderBytes ctx ++ _ctmCompressDispatch codecs ctx)) ∧
    Nat.testBit (_ctmSaveFlags ctx) 0 = ctx.mNormals.isSome := by
  refine ⟨?_, ?_, ?_⟩
  · rintro (hb | hb | hb | hb) <;>
      simp [ctmSaveCustom, h, hb, Option.isNone_iff_eq_none]
  · intro hv hi hvc htc
    simp [ctmSaveCustom, ctmHeaderBytes, _ctmSaveFlags, h,
      Option.isNone_iff_eq_none, hv, hi, hvc, htc, _CTM_HAS_NORMALS_BIT]
  · cases hN : ctx.mNormals.isSome <;>
      simp [_ctmSaveFlags, hN, _CTM_HAS_NORMALS_BIT]

theorem ctm_save_header_witness :
    ctmSaveCustom qCodecs (some exCtx) =
      (some exCtx, ctmHeaderBytes exCtx ++ _ctmCompressDispatch qCodecs exCtx) ∧
    ctmSaveCustom qCodecs (some { exCtx with mVertices := none }) =
      (some { exCtx with mVertices := none, mError := CTM_INVALID_MESH }, []) := by
  constructor
  · exact (ctm_save_header qCodecs exCtx rfl).2.1 (by decide) (by decide)
      (by decide) (by decide)
  · exact (ctm_save_header qCodecs { exCtx with mVertices := none } rfl).1 (Or.inl rfl)

/-- C7: for a context whose map counts match its map lists, texture-map
identifiers `base+0 .. base+N-1` resolve to the entries in insertion order
(the `(k+1)`-th inserted entry for `base+k`), and likewise for attribute
maps; `base+N` and `base-1` — and any identifier that is in neither range
and is not a recognized array property — return null and set
invalid-argument.  `hbound` keeps the open-ended texture range inside the
enumeration gap below the attribute-map base. -/
theorem ctm_map_index_dispatch (ctx : CTMcontext F)
    (htex : ctx.mTexMapCount = ctx.mTexMaps.length)
    (hattr : ctx.mAttribMapCount = ctx.mAttribMaps.length)
    (hbound : ctx.mTexMapCount < 0x200) :
    (∀ k (hk : k < ctx.mTexMaps.length),
      ctmGetFloatArray (some ctx) (CTM_TEX_MAP_1 + k) =
        ((ctx.mTexMaps.get ⟨k, hk⟩).mValues, some ctx)) ∧
    (∀ k (hk : k < ctx.mAttribMaps.length),
      ctmGetFloatArray (some ctx) (CTM_ATTRIB_MAP_1 + k) =
        ((ctx.mAttribMaps.get ⟨k, hk⟩).mValues, some ctx)) ∧
    ctmGetFloatArray (some ctx) (CTM_TEX_MAP_1 + ctx.mTexMapCount) =
      (none, some { ctx with mError := CTM_INVALID_ARGUMENT }) ∧
    ctmGetFloatArray (some ctx) (CTM_TEX_MAP_1 - 1) =
      (none, some { ctx with mError := CTM_INVALID_ARGUMENT }) ∧
    ctmGetFloatArray (some ctx) (CTM_ATTRIB_MAP_1 + ctx.mAttribMapCount) =
      (none, some { ctx with mError := CTM_INVALID_ARGUMENT }) ∧
    ctmGetFloatArray (some ctx) (CTM_ATTRIB_MAP_1 - 1) =
      (none, some { ctx with mError := CTM_INVALID_ARGUMENT }) ∧
    (∀ p, ¬(CTM_TEX_MAP_1 ≤ p ∧ p - CTM_TEX_MAP_1 < ctx.mTexMapCount) →
      ¬(CTM_ATTRIB_MAP_1 ≤ p ∧ p - CTM_ATTRIB_MAP_1 < ctx.mAttribMapCount) →
      p ≠ CTM_VERTICES → p ≠ CTM_NORMALS →
      ctmGetFloatArray (some ctx) p =
        (none, some { ctx with mError := CTM_INVALID_ARGUMENT })) := by
  simp only [CTM_TEX_MAP_1, CTM_ATTRIB_MAP_1, CTM_VERTICES, CTM_NORMALS] at hbound ⊢
  refine ⟨?_, ?_, ?_, ?_, ?_, ?_, ?_⟩
  · intro k hk
    simp only [ctmGetFloatArray, CTM_TEX_MAP_1]
    rw [if_pos (by omega)]
    rw [show (0x0200 : Nat) + k = 0x0200 + k from rfl, _ctmWalkMap_get,
      List.getElem?_eq_getElem hk]
    simp
  · intro k hk
    simp only [ctmGetFloatArray, CTM_TEX_MAP_1, CTM_ATTRIB_MAP_1]
    rw [if_neg (by omega), if_pos (by omega)]
    rw [_ctmWalkMap_get, List.getElem?_eq_getElem hk]
    simp
  · simp only [ctmGetFloatArray, CTM_TEX_MAP_1, CTM_ATTRIB_MAP_1,
      CTM_VERTICES, CTM_NORMALS]
    rw [if_neg (by omega), if_neg (by omega), if_neg (by omega), if_neg (by omega)]
  · simp only [ctmGetFloatArray, CTM_TEX_MAP_1, CTM_ATTRIB_MAP_1,
      CTM_VERTICES, CTM_NORMALS]
    rw [if_neg (by omega), if_neg (by omega), if_neg (by omega), if_neg (by omega)]
  · simp only [ctmGetFloatArray, CTM_TEX_MAP_1, CTM_ATTRIB_MAP_1,
      CTM_VERTICES, CTM_NORMALS]
    rw [if_neg (by omega), if_neg (by omega), if_neg (by omega), if_neg (by omega)]
  · simp only [ctmGetFloatArray, CTM_TEX_MAP_1, CTM_ATTRIB_MAP_1,
      CTM_VERTICES, CTM_NORMALS]
    rw [if_neg (by omega), if_neg (by omega), if_neg (by omega), if_neg (by omega)]
  · intro p h1 h2 h3 h4
    simp only [ctmGetFloatArray, CTM_TEX_MAP_1, CTM_ATTRIB_MAP_1,
      CTM_VERTICES, CTM_NORMALS]
    rw [if_neg h1, if_neg h2, if_neg h3, if_neg h4]

theorem ctm_map_index_dispatch_witness :
    ctmGetFloatArray (some texCtx) (CTM_TEX_MAP_1 + 0) =
      (some [1, 2, 3, 4], some texCtx) ∧
    ctmGetFloatArray (some texCtx) (CTM_TEX_MAP_1 + 1) =
      (some [5, 6, 7, 8], some texCtx) ∧
    ctmGetFloatArray (some texCtx) (CTM_ATTRIB_MAP_1 + 0) =
      (some [9, 10], some texCtx) ∧
    ctmGetFloatArray (some texCtx) (CTM_TEX_MAP_1 + 2) =
      (none, some { texCtx with mError := CTM_INVALID_ARGUMENT }) ∧
    ctmGetFloatArray (some texCtx) (CTM_TEX_MAP_1 - 1) =
      (none, some { texCtx with mError := CTM_INVALID_ARGUMENT }) := by
  obtain ⟨h1, h2, h3, h4, h5, h6, h7⟩ :=
    ctm_map_index_dispatch texCtx rfl rfl (by decide)
  exact ⟨(h1 0 (by decide)).trans (by simp [texCtx]),
    (h1 1 (by decide)).trans (by simp [texCtx]),
    (h2 0 (by decide)).trans (by simp [texCtx]), h3, h4⟩

/-- C6: for an Export-mode context and relative factor `R > 0`,
`ctmVertexPrecisionRel` with the Euclidean square root stores
`R` times the mean edge length — the sum over every triangle of its three
boundary edges (corner 0 to 1, 1 to 2, and the wrap edge from the last
corner back to the first) divided by `3 × triangleCount` — mutating only
the precision field; with zero triangles it sets invalid-mesh instead of
dividing by zero. -/
theorem ctm_vertex_precision_rel (ctx : CTMcontext ℝ) (R : ℝ)
    (h : ctx.mMode = CTM_EXPORT) (hR : 0 < R) :
    (ctx.mTriangleCount = 0 →
      ctmVertexPrecisionRel Real.sqrt (some ctx) R =
        some { ctx with mError := CTM_INVALID_MESH }) ∧
    (ctx.mTriangleCount ≠ 0 →
      ctmVertexPrecisionRel Real.sqrt (some ctx) R =
        some { ctx with mVertexPrecision :=
          R * ((∑ i ∈ Finset.range ctx.mTriangleCount,
            _ctmTriangleEdgeSum Real.sqrt (ctx.mVertices.getD [])
              (ctx.mIndices.getD []) i) /
            ((3 * ctx.mTriangleCount : Nat) : ℝ)) }) := by
  have hwalk := _ctmEdgeWalk_eq Real.sqrt (ctx.mVertices.getD [])
    (ctx.mIndices.getD []) ctx.mTriangleCount
  constructor
  · intro hT
    simp [ctmVertexPrecisionRel, h, hR.not_le, hT, _ctmEdgeWalk]
  · intro hT
    simp [ctmVertexPrecisionRel, h, hR.not_le, hwalk, hT]

theorem ctm_vertex_precision_rel_witness :
    ctmVertexPrecisionRel Real.sqrt (some eqTriCtx) 2 =
      some { eqTriCtx with mVertexPrecision := 2 * Real.sqrt 2 } := by
  have h := (ctm_vertex_precision_rel eqTriCtx 2 rfl (by norm_num)).2
    (by simp [eqTriCtx])
  rw [h]
  have hsum : (∑ i ∈ Finset.range eqTriCtx.mTriangleCount,
      _ctmTriangleEdgeSum Real.sqrt (eqTriCtx.mVertices.getD [])
        (eqTriCtx.mIndices.getD []) i) = Real.sqrt 2 + Real.sqrt 2 + Real.sqrt 2 := by
    show (∑ i ∈ Finset.range 1,
      _ctmTriangleEdgeSum Real.sqrt [0, 0, 0, 1, 1, 0, 1, 0, 1] [0, 1, 2] i) = _
    rw [Finset.sum_range_one]
    simp [_ctmTriangleEdgeSum, _edgeLen, _vtx, _idx]
    norm_num
  rw [hsum]
  have hden : ((3 * eqTriCtx.mTriangleCount : ℕ) : ℝ) = 3 := by norm_num [eqTriCtx]
  rw [hden]
  congr 1
  congr 1
  ring
